import Mathlib

/-!
Shallow embedding of the sales-management program (`models.py`, `app.py`).

The database is modelled as explicit state: one list of rows per table.
Money columns (`Numeric(10,2)`; Python accumulates subtotals in `float`)
are modelled as exact rationals — floating-point rounding is outside the
scope of the claims, which are about which values flow where.  Wall-clock
timestamps (`hora_peru`) and the surrogate key of `Auditoria` are omitted
because no claim mentions them; dates are opaque naturals supplied by the
caller.  SQLAlchemy's session buffers all mutations until `commit`, and
`rollback` discards them, so each operation is a function from the
pre-call state to the post-call state: early `return`s and the
`except` branch return the state unchanged, the commit point returns the
mutated state.  A lower-level persistence fault (the `except Exception`
branch of `registrar_venta`) is modelled by an extra `fault` argument:
`some causa` means an exception with text `causa` is raised during the
atomic sequence (steps 2-7), `none` means the sequence runs cleanly.
-/

/-- Row of table `Producto` (models.py, class Producto). -/
structure Producto where
  id_producto : Nat
  nombre_producto : String
  descripcion : String
  precio : Rat
  stock : Int
  deriving Repr, DecidableEq

/-- Row of table `Venta` (models.py, class Venta). -/
structure Venta where
  id_venta : Nat
  fecha_venta : Nat
  id_cliente : Nat
  id_usuario : Nat
  total : Rat
  deriving Repr, DecidableEq

/-- Row of table `DetalleVenta` (models.py, class DetalleVenta). -/
structure DetalleVenta where
  id_detalle : Nat
  id_venta : Nat
  id_producto : Nat
  cantidad : Int
  precio_unitario : Rat
  deriving Repr, DecidableEq

/-- Computed column `subtotal = cantidad * precio_unitario` (models.py). -/
def DetalleVenta.subtotal (d : DetalleVenta) : Rat :=
  (d.cantidad : Rat) * d.precio_unitario

/-- Row of table `Auditoria` (models.py, class Auditoria); the wall-clock
`fecha` column and the surrogate key are not modelled. -/
structure Auditoria where
  tabla : String
  accion : String
  id_registro : Nat
  usuario_sql : String
  datos : String
  deriving Repr, DecidableEq

/-- The database state: the four tables the claims are about.  (`Cliente`
and `Usuario` rows are only ever read through their ids by the code under
study, so they appear as plain `Nat` ids.) -/
structure DBState where
  productos : List Producto
  ventas : List Venta
  detalles : List DetalleVenta
  auditorias : List Auditoria
  deriving Repr, DecidableEq

/-- One entry of the `detalles_productos` request list:
`{id_producto, cant, precio}` (models.py `registrar_venta` docstring). -/
structure DetalleProdReq where
  id_producto : Nat
  cant : Int
  precio : Rat
  deriving Repr, DecidableEq

/-- The `status` field of the result dict: `success` or `error`. -/
inductive Status where
  | success
  | error
  deriving Repr, DecidableEq

/-- The result dict of `registrar_venta`:
`{status, mensaje, venta_id, total_venta}`. -/
structure ResultadoVenta where
  status : Status
  mensaje : String
  venta_id : Nat
  total_venta : Rat
  deriving Repr, DecidableEq

/-- `Producto.query.get(id)`: primary-key lookup. -/
def productoGet (s : DBState) (id : Nat) : Option Producto :=
  s.productos.find? (fun p => p.id_producto == id)

/-- Error message of the existence check (models.py line 219). -/
def msgProductoNoEncontrado (id : Nat) : String :=
  "Producto ID " ++ toString id ++ " no encontrado"

/-- Error message of the stock check (models.py lines 227-228). -/
def msgStockInsuficiente (p : Producto) (cant : Int) : String :=
  "Stock insuficiente para \x27" ++ p.nombre_producto ++ "\x27 (ID: "
    ++ toString p.id_producto ++ "). Solicitado: " ++ toString cant
    ++ ", Disponible: " ++ toString p.stock

/-- Step 1 of `registrar_venta` (models.py lines 213-231, comment
`VERIFICAR STOCK DISPONIBLE`): walk the request list; on the first entry
whose product is missing or whose `cant` exceeds the product's stock,
return the corresponding error dict; otherwise fall through. -/
def verificarStock (s : DBState) : List DetalleProdReq → Option ResultadoVenta
  | [] => none
  | d :: rest =>
    match productoGet s d.id_producto with
    | none => some ⟨Status.error, msgProductoNoEncontrado d.id_producto, 0, 0⟩
    | some p =>
      if p.stock < d.cant then
        some ⟨Status.error, msgStockInsuficiente p d.cant, 0, 0⟩
      else
        verificarStock s rest

/-- Autoincrement for `Venta.id_venta`: one more than the largest id. -/
def nextVentaId (s : DBState) : Nat :=
  (s.ventas.map (fun v => v.id_venta)).foldr max 0 + 1

/-- Autoincrement for `DetalleVenta.id_detalle`. -/
def nextDetalleId (s : DBState) : Nat :=
  (s.detalles.map (fun d => d.id_detalle)).foldr max 0 + 1

/-- Step 3 (models.py lines 246-255): one `DetalleVenta` per request
entry, copying `id_producto`, `cant` and the request's `precio` into
`precio_unitario`. -/
def mkDetalles (idStart id_venta : Nat) : List DetalleProdReq → List DetalleVenta
  | [] => []
  | d :: rest =>
    ⟨idStart, id_venta, d.id_producto, d.cant, d.precio⟩
      :: mkDetalles (idStart + 1) id_venta rest

/-- Step 5 (models.py lines 260-263): for each request entry, decrement
the referenced product's stock by `cant` (sequentially, so a product id
occurring in several entries is decremented several times). -/
def aplicarStock (ps : List Producto) : List DetalleProdReq → List Producto
  | [] => ps
  | d :: rest =>
    aplicarStock
      (ps.map (fun p =>
        if p.id_producto == d.id_producto then
          { p with stock := p.stock - d.cant }
        else p))
      rest

/-- Left-first deduplication of a list of ids (used to model that one
SQLAlchemy `after_update` event fires per distinct updated row). -/
def dedupNat : List Nat → List Nat
  | [] => []
  | x :: xs => x :: (dedupNat xs).filter (fun y => decide (y ≠ x))

/-- The `after_update` trigger on `Producto`
(models.py lines 164-174): one `UPDATE` audit row per updated product. -/
def auditoriaTriggerProducto (p : Producto) : Auditoria :=
  ⟨"Producto", "UPDATE", p.id_producto, "system",
    "Producto actualizado: " ++ p.nombre_producto⟩

/-- Trigger rows fired by the stock updates of `registrar_venta`: one per
distinct product id in the request (the name shown is unchanged by the
stock update, so it is read off the pre-state). -/
def auditoriasTrigger (s : DBState) (dets : List DetalleProdReq) : List Auditoria :=
  (dedupNat (dets.map (fun d => d.id_producto))).filterMap
    (fun pid => (productoGet s pid).map auditoriaTriggerProducto)

/-- Two-digit rendering of the cents part. -/
def pad2 (n : Nat) : String :=
  if n < 10 then "0" ++ toString n else toString n

/-- Rounding to whole cents, half to even (the tie rule of `{x:.2f}`,
applied to the exact value rather than to a binary float). -/
def centsHalfEven (q : Rat) : Int :=
  let x := q * 100
  let f := x.floor
  if x - f < 1 / 2 then f
  else if x - f > 1 / 2 then f + 1
  else if f % 2 = 0 then f else f + 1

/-- `f"{total:.2f}"`: fixed-point rendering with two decimals. -/
def formatMoney (q : Rat) : String :=
  let c := centsHalfEven q
  let sign := if c < 0 then "-" else ""
  sign ++ toString (c.natAbs / 100) ++ "." ++ pad2 (c.natAbs % 100)

/-- `datos` field of the audit row written by step 6
(models.py line 271). -/
def datosAuditoriaVenta (id_cliente : Nat) (total : Rat) : String :=
  "Venta registrada: Cliente ID " ++ toString id_cliente
    ++ ", Total S/. " ++ formatMoney total

/-- The audit row written by step 6 (models.py lines 266-273). -/
def auditoriaVenta (id_cliente id_venta : Nat) (total : Rat) : Auditoria :=
  ⟨"Venta", "INSERT", id_venta, "system", datosAuditoriaVenta id_cliente total⟩

/-- Steps 2-6 of `registrar_venta` as one state change, applied at the
commit point (step 7): insert the `Venta` header with the accumulated
total, insert one `DetalleVenta` per request entry, decrement stock per
entry, append the explicit `Venta INSERT` audit row and the
trigger-generated `Producto UPDATE` rows. -/
def commitVenta (s : DBState) (id_cliente id_usuario fechaV : Nat)
    (dets : List DetalleProdReq) : DBState :=
  let id_venta := nextVentaId s
  let nuevos := mkDetalles (nextDetalleId s) id_venta dets
  let total := (nuevos.map DetalleVenta.subtotal).sum
  { productos := aplicarStock s.productos dets
    ventas := s.ventas ++ [⟨id_venta, fechaV, id_cliente, id_usuario, total⟩]
    detalles := s.detalles ++ nuevos
    auditorias := s.auditorias ++ [auditoriaVenta id_cliente id_venta total]
      ++ auditoriasTrigger s dets }

/-- `registrar_venta` (models.py lines 192-292).  `fecha = none` selects
the current Peru date `hoy` (line 211).  A `None` request list defaults
to `[]` before the call, so the argument is a plain list.  `fault` models
an exception raised during the atomic sequence: it is caught by the
`except` block, the session is rolled back, and the generic error dict is
returned (lines 285-292).  Validation failures return before any
mutation, so the state is the caller's state unchanged. -/
def registrar_venta (s : DBState) (id_cliente id_usuario : Nat)
    (fecha : Option Nat) (detalles_productos : List DetalleProdReq)
    (hoy : Nat) (fault : Option String) : ResultadoVenta × DBState :=
  match verificarStock s detalles_productos with
  | some err => (err, s)
  | none =>
    match fault with
    | some causa =>
      (⟨Status.error, "Error al registrar venta: " ++ causa, 0, 0⟩, s)
    | none =>
      let nuevos :=
        mkDetalles (nextDetalleId s) (nextVentaId s) detalles_productos
      let total := (nuevos.map DetalleVenta.subtotal).sum
      (⟨Status.success, "Venta registrada exitosamente", nextVentaId s, total⟩,
        commitVenta s id_cliente id_usuario (fecha.getD hoy) detalles_productos)

/-- `Usuario.tiene_permiso` (models.py lines 62-69): the fixed
role-to-permission table, `dict.get(rol, [])` for unknown roles. -/
def tiene_permiso (rol : String) (accion : String) : Bool :=
  (if rol = "admin" then
    ["crear", "leer", "actualizar", "eliminar", "ventas", "reportes"]
  else if rol = "vendedor" then
    ["leer", "ventas", "actualizar_cliente"]
  else if rol = "consulta" then
    ["leer", "reportes"]
  else []).contains accion

/-- `editar_producto` (app.py lines 284-300): overwrite the product's
name, description, price and stock, then commit (which fires the
`after_update` audit trigger).  A missing id aborts with 404 before any
mutation. -/
def editar_producto (s : DBState) (id : Nat)
    (nombre_producto descripcion : String) (precio : Rat) (stock : Int) :
    DBState :=
  match productoGet s id with
  | none => s
  | some _ =>
    { s with
      productos := s.productos.map (fun p =>
        if p.id_producto == id then
          { p with
            nombre_producto := nombre_producto
            descripcion := descripcion
            precio := precio
            stock := stock }
        else p)
      auditorias := s.auditorias
        ++ [⟨"Producto", "UPDATE", id, "system",
              "Producto actualizado: " ++ nombre_producto⟩] }

/-- Detail-building loop of the route `nueva_venta`
(app.py lines 346-359): skip non-positive quantities and unknown
products; for the rest, supply the product's current `precio`. -/
def buildDetalles (s : DBState) : List (Nat × Int) → List DetalleProdReq
  | [] => []
  | (idp, cant) :: rest =>
    if cant ≤ 0 then buildDetalles s rest
    else
      match productoGet s idp with
      | none => buildDetalles s rest
      | some p => ⟨idp, cant, p.precio⟩ :: buildDetalles s rest

/-- Outcome of the route `nueva_venta`: either the request-layer
rejection (flash + redirect, engine not called) or the engine's result. -/
inductive RouteResult where
  | rechazado (msg : String)
  | engine (r : ResultadoVenta)
  deriving Repr, DecidableEq

/-- The POST branch of the route `nueva_venta` (app.py lines 337-378):
build the filtered detail list, reject when it is empty, otherwise call
`registrar_venta` with today's date. -/
def nueva_venta (s : DBState) (id_cliente id_usuario hoy : Nat)
    (items : List (Nat × Int)) (fault : Option String) :
    RouteResult × DBState :=
  let dets := buildDetalles s items
  if dets.isEmpty then
    (RouteResult.rechazado "Debe agregar al menos un producto", s)
  else
    let r := registrar_venta s id_cliente id_usuario (some hoy) dets hoy fault
    (RouteResult.engine r.1, r.2)

/-! Concrete sample states used by witnesses and counterexamples. -/

/-- A store holding one product, id 1, price 850, stock 25
(scenario 1 of the spec's example list). -/
def sOne : DBState := ⟨[⟨1, "Sofa 3 Cuerpos", "Sofa de 3 cuerpos", 850, 25⟩], [], [], []⟩

/-- A store holding one product with a single unit in stock. -/
def sLow : DBState := ⟨[⟨1, "Sofa 3 Cuerpos", "Sofa de 3 cuerpos", 850, 1⟩], [], [], []⟩

/-- Product id 1 with stock 5 (scenario 2 of the spec's example list). -/
def pFive : Producto := ⟨1, "Cama Matrimonial", "Cama de madera", 950, 5⟩

/-- A store holding only `pFive`. -/
def sFive : DBState := ⟨[pFive], [], [], []⟩

/-! Helper lemmas about the embedded operations. -/

/-- Every result produced by the validation pass is an error dict with
`venta_id = 0` and `total_venta = 0`. -/
theorem verificarStock_eq_some (s : DBState) (dets : List DetalleProdReq)
    (err : ResultadoVenta) (h : verificarStock s dets = some err) :
    err.status = Status.error ∧ err.venta_id = 0 ∧ err.total_venta = 0 := by
  induction dets with
  | nil => simp [verificarStock] at h
  | cons d rest ih =>
    unfold verificarStock at h
    split at h
    · cases h
      exact ⟨rfl, rfl, rfl⟩
    · split at h
      · cases h
        exact ⟨rfl, rfl, rfl⟩
      · exact ih h

/-- A successful result forces both a clean validation pass and a clean
atomic sequence. -/
theorem registrar_venta_success_cases (s : DBState) (c u hoy : Nat)
    (f : Option Nat) (dets : List DetalleProdReq) (fl : Option String)
    (h : (registrar_venta s c u f dets hoy fl).1.status = Status.success) :
    verificarStock s dets = none ∧ fl = none := by
  cases hv : verificarStock s dets with
  | some err =>
    exfalso
    have he := verificarStock_eq_some s dets err hv
    simp [registrar_venta, hv] at h
    rw [he.1] at h
    exact Status.noConfusion h
  | none =>
    cases fl with
    | some causa => simp [registrar_venta, hv] at h
    | none => exact ⟨rfl, rfl⟩

/-- On a clean run, `registrar_venta` returns the success dict and the
committed state. -/
theorem registrar_venta_success_eq (s : DBState) (c u hoy : Nat)
    (f : Option Nat) (dets : List DetalleProdReq)
    (hv : verificarStock s dets = none) :
    registrar_venta s c u f dets hoy none =
      (⟨Status.success, "Venta registrada exitosamente", nextVentaId s,
          ((mkDetalles (nextDetalleId s) (nextVentaId s) dets).map
            DetalleVenta.subtotal).sum⟩,
        commitVenta s c u (f.getD hoy) dets) := by
  simp [registrar_venta, hv]

/-- The detail rows materialised by step 3 copy the request's prices. -/
theorem mkDetalles_map_precio (i v : Nat) (dets : List DetalleProdReq) :
    (mkDetalles i v dets).map DetalleVenta.precio_unitario =
      dets.map DetalleProdReq.precio := by
  induction dets generalizing i with
  | nil => rfl
  | cons d rest ih => simp [mkDetalles, ih]

/-- The detail rows materialised by step 3 copy the request's
quantities. -/
theorem mkDetalles_map_cantidad (i v : Nat) (dets : List DetalleProdReq) :
    (mkDetalles i v dets).map DetalleVenta.cantidad =
      dets.map DetalleProdReq.cant := by
  induction dets generalizing i with
  | nil => rfl
  | cons d rest ih => simp [mkDetalles, ih]

/-- One detail row per request entry. -/
theorem mkDetalles_length (i v : Nat) (dets : List DetalleProdReq) :
    (mkDetalles i v dets).length = dets.length := by
  induction dets generalizing i with
  | nil => rfl
  | cons d rest ih => simp [mkDetalles, ih]

/-- The accumulated total is the sum over request entries of
quantity times supplied price. -/
theorem mkDetalles_subtotal_sum (i v : Nat) (dets : List DetalleProdReq) :
    ((mkDetalles i v dets).map DetalleVenta.subtotal).sum =
      (dets.map (fun d => (d.cant : Rat) * d.precio)).sum := by
  induction dets generalizing i with
  | nil => rfl
  | cons d rest ih => simp [mkDetalles, DetalleVenta.subtotal, ih]

/-! Claim theorems. -/

/-- C3: for every call to `registrar_venta` that returns an error result
(validation failure or any exception during the sequence), the `Venta`
rows, `DetalleVenta` rows, every product's stock and the `Auditoria` rows
after the call equal their values immediately before the call. -/
theorem c3_error_sin_efectos (s : DBState) (c u hoy : Nat) (f : Option Nat)
    (dets : List DetalleProdReq) (fl : Option String)
    (h : (registrar_venta s c u f dets hoy fl).1.status = Status.error) :
    (registrar_venta s c u f dets hoy fl).2.ventas = s.ventas ∧
    (registrar_venta s c u f dets hoy fl).2.detalles = s.detalles ∧
    (registrar_venta s c u f dets hoy fl).2.productos = s.productos ∧
    (registrar_venta s c u f dets hoy fl).2.auditorias = s.auditorias := by
  cases hv : verificarStock s dets with
  | some err => simp [registrar_venta, hv]
  | none =>
    cases fl with
    | some causa => simp [registrar_venta, hv]
    | none => simp [registrar_venta, hv] at h

/-- C3 witness: a request for a nonexistent product id leaves the store
untouched. -/
theorem c3_witness :
    (registrar_venta sOne 1 1 none [⟨9999, 1, 10⟩] 0 none).2.ventas = sOne.ventas ∧
    (registrar_venta sOne 1 1 none [⟨9999, 1, 10⟩] 0 none).2.detalles = sOne.detalles ∧
    (registrar_venta sOne 1 1 none [⟨9999, 1, 10⟩] 0 none).2.productos = sOne.productos ∧
    (registrar_venta sOne 1 1 none [⟨9999, 1, 10⟩] 0 none).2.auditorias = sOne.auditorias :=
  c3_error_sin_efectos sOne 1 1 0 none [⟨9999, 1, 10⟩] none rfl

/-- C7: every call returns a structured result whose status is success or
error, whose `venta_id` is `0` exactly when the status is error, and a
fault raised during the atomic sequence is caught and converted into
either the generic error dict or (when validation already failed) the
validation error dict — it never escapes to the caller. -/
theorem c7_forma_resultado (s : DBState) (c u hoy : Nat) (f : Option Nat)
    (dets : List DetalleProdReq) (fl : Option String) :
    ((registrar_venta s c u f dets hoy fl).1.status = Status.success ∨
      (registrar_venta s c u f dets hoy fl).1.status = Status.error) ∧
    ((registrar_venta s c u f dets hoy fl).1.venta_id = 0 ↔
      (registrar_venta s c u f dets hoy fl).1.status = Status.error) ∧
    (∀ causa, fl = some causa →
      (registrar_venta s c u f dets hoy fl).1 =
          ⟨Status.error, "Error al registrar venta: " ++ causa, 0, 0⟩ ∨
        verificarStock s dets = some (registrar_venta s c u f dets hoy fl).1) := by
  cases hv : verificarStock s dets with
  | some err =>
    have he := verificarStock_eq_some s dets err hv
    refine ⟨Or.inr ?_, ?_, ?_⟩
    · simp [registrar_venta, hv, he.1]
    · simp [registrar_venta, hv, he.1, he.2.1]
    · intro causa _
      exact Or.inr (by simp [registrar_venta, hv, hv.symm ▸ hv])
  | none =>
    cases fl with
    | some causa =>
      refine ⟨Or.inr ?_, ?_, ?_⟩
      · simp [registrar_venta, hv]
      · simp [registrar_venta, hv]
      · intro causa' hc
        cases hc
        exact Or.inl (by simp [registrar_venta, hv])
    | none =>
      refine ⟨Or.inl ?_, ?_, ?_⟩
      · simp [registrar_venta, hv]
      · simp [registrar_venta, hv, nextVentaId]
      · intro causa hc
        exact Option.noConfusion hc

/-- C7 witness: a persistence fault on an otherwise clean call is
converted into the generic structured error dict. -/
theorem c7_witness :
    (registrar_venta sOne 1 1 none [] 0 (some "disk full")).1 =
        ⟨Status.error, "Error al registrar venta: " ++ "disk full", 0, 0⟩ ∨
      verificarStock sOne [] =
        some (registrar_venta sOne 1 1 none [] 0 (some "disk full")).1 :=
  (c7_forma_resultado sOne 1 1 0 none [] (some "disk full")).2.2 "disk full" rfl

/-- C8: `tiene_permiso` is a total function matching the fixed table —
admin: crear, leer, actualizar, eliminar, ventas, reportes; vendedor:
leer, ventas, actualizar_cliente; consulta: leer, reportes — and every
role outside this enumeration gets `false` for every action, without
raising. -/
theorem c8_tabla_permisos :
    (∀ a, tiene_permiso "admin" a =
      ["crear", "leer", "actualizar", "eliminar", "ventas", "reportes"].contains a) ∧
    (∀ a, tiene_permiso "vendedor" a =
      ["leer", "ventas", "actualizar_cliente"].contains a) ∧
    (∀ a, tiene_permiso "consulta" a = ["leer", "reportes"].contains a) ∧
    (∀ rol a, rol ≠ "admin" → rol ≠ "vendedor" → rol ≠ "consulta" →
      tiene_permiso rol a = false) := by
  refine ⟨fun a => rfl, fun a => rfl, fun a => rfl, ?_⟩
  intro rol a h1 h2 h3
  simp [tiene_permiso, h1, h2, h3]

/-- C8 witness: an unknown role has no permissions at all. -/
theorem c8_witness : tiene_permiso "superusuario" "leer" = false :=
  c8_tabla_permisos.2.2.2 "superusuario" "leer"
    (by decide) (by decide) (by decide)

/-- C9: editing a product (`editar_producto`, which is how a price change
is performed) leaves every recorded `DetalleVenta` row — hence every
captured unit price and subtotal — and every `Venta` row — hence every
recorded total — exactly as they were; and `registrar_venta` only ever
appends to those tables, so no later operation mutates a committed line
item's captured price. -/
theorem c9_precio_capturado (s : DBState) (id : Nat)
    (nom des : String) (pr : Rat) (st : Int) (c u hoy : Nat)
    (f : Option Nat) (dets : List DetalleProdReq) (fl : Option String) :
    (editar_producto s id nom des pr st).detalles = s.detalles ∧
    (editar_producto s id nom des pr st).ventas = s.ventas ∧
    (∃ nuevos, (registrar_venta s c u f dets hoy fl).2.detalles =
      s.detalles ++ nuevos) ∧
    (∃ nv, (registrar_venta s c u f dets hoy fl).2.ventas =
      s.ventas ++ nv) := by
  refine ⟨?_, ?_, ?_, ?_⟩
  · unfold editar_producto
    split <;> rfl
  · unfold editar_producto
    split <;> rfl
  · cases hv : verificarStock s dets with
    | some err => exact ⟨[], by simp [registrar_venta, hv]⟩
    | none =>
      cases fl with
      | some causa => exact ⟨[], by simp [registrar_venta, hv]⟩
      | none =>
        exact ⟨mkDetalles (nextDetalleId s) (nextVentaId s) dets,
          by simp [registrar_venta, hv, commitVenta]⟩
  · cases hv : verificarStock s dets with
    | some err => exact ⟨[], by simp [registrar_venta, hv]⟩
    | none =>
      cases fl with
      | some causa => exact ⟨[], by simp [registrar_venta, hv]⟩
      | none =>
        exact ⟨[⟨nextVentaId s, f.getD hoy, c, u,
            ((mkDetalles (nextDetalleId s) (nextVentaId s) dets).map
              DetalleVenta.subtotal).sum⟩],
          by simp [registrar_venta, hv, commitVenta]⟩

/-- If every requested product exists and some request line exceeds its
product's current stock, the validation pass stops at such a line and
returns the insufficiency error dict built from that product's data. -/
theorem verificarStock_insuficiente (s : DBState) (dets : List DetalleProdReq)
    (hex : ∀ d ∈ dets, ∃ p, productoGet s d.id_producto = some p)
    (hfail : ∃ d ∈ dets, ∃ p,
      productoGet s d.id_producto = some p ∧ p.stock < d.cant) :
    ∃ d ∈ dets, ∃ p, productoGet s d.id_producto = some p ∧
      p.stock < d.cant ∧
      verificarStock s dets =
        some ⟨Status.error, msgStockInsuficiente p d.cant, 0, 0⟩ := by
  induction dets with
  | nil => simp at hfail
  | cons d rest ih =>
    obtain ⟨p, hp⟩ := hex d (List.mem_cons_self d rest)
    by_cases hlt : p.stock < d.cant
    · exact ⟨d, List.mem_cons_self d rest, p, hp, hlt,
        by simp [verificarStock, hp, hlt]⟩
    · have htail : ∃ d' ∈ rest, ∃ p',
          productoGet s d'.id_producto = some p' ∧ p'.stock < d'.cant := by
        obtain ⟨d', hd', p', hp', hlt'⟩ := hfail
        rcases List.mem_cons.mp hd' with h1 | h2
        · subst h1
          rw [hp] at hp'
          cases hp'
          exact absurd hlt' hlt
        · exact ⟨d', h2, p', hp', hlt'⟩
      obtain ⟨d', hd', p', hp', hlt', hvs⟩ :=
        ih (fun x hx => hex x (List.mem_cons_of_mem d hx)) htail
      exact ⟨d', List.mem_cons_of_mem d hd', p', hp', hlt',
        by simp [verificarStock, hp, hlt, hvs]⟩

/-- C6: when all referenced products exist but some line's quantity
exceeds its product's current stock, `registrar_venta` returns the
insufficiency error reporting the product (name and id), the requested
quantity and the available stock, and the whole order is rejected with
the store left untouched. -/
theorem c6_stock_insuficiente (s : DBState) (c u hoy : Nat) (f : Option Nat)
    (dets : List DetalleProdReq) (fl : Option String)
    (hex : ∀ d ∈ dets, ∃ p, productoGet s d.id_producto = some p)
    (hfail : ∃ d ∈ dets, ∃ p,
      productoGet s d.id_producto = some p ∧ p.stock < d.cant) :
    ∃ d ∈ dets, ∃ p, productoGet s d.id_producto = some p ∧
      p.stock < d.cant ∧
      registrar_venta s c u f dets hoy fl =
        (⟨Status.error, msgStockInsuficiente p d.cant, 0, 0⟩, s) := by
  obtain ⟨d, hd, p, hp, hlt, hvs⟩ := verificarStock_insuficiente s dets hex hfail
  exact ⟨d, hd, p, hp, hlt, by simp [registrar_venta, hvs]⟩

/-- C6 witness: requesting 10 units of a product with stock 5 (the
spec's scenario 2) is rejected with the insufficiency message and no
state change. -/
theorem c6_witness :
    ∃ d ∈ [(⟨1, 10, 950⟩ : DetalleProdReq)], ∃ p,
      productoGet sFive d.id_producto = some p ∧ p.stock < d.cant ∧
      registrar_venta sFive 1 1 none [⟨1, 10, 950⟩] 0 none =
        (⟨Status.error, msgStockInsuficiente p d.cant, 0, 0⟩, sFive) :=
  c6_stock_insuficiente sFive 1 1 0 none [⟨1, 10, 950⟩] none
    (by
      intro d hd
      rw [List.mem_singleton] at hd
      subst hd
      exact ⟨pFive, rfl⟩)
    ⟨⟨1, 10, 950⟩, List.mem_singleton.mpr rfl, pFive, rfl, by decide⟩

/-- C1 counterexample: `registrar_venta` called with a request price of
999 for a product whose current price is 850 succeeds, captures 999 as
the line item's unit price and returns the total 2 x 999 = 1998 — so the
captured price is the caller-supplied one, not the product's current one,
refuting the claim as stated. -/
theorem c1_counterexample :
    (registrar_venta sOne 1 1 none [⟨1, 2, 999⟩] 0 none).1.status = Status.success ∧
    (registrar_venta sOne 1 1 none [⟨1, 2, 999⟩] 0 none).2.detalles.map
      DetalleVenta.precio_unitario = [999] ∧
    (productoGet sOne 1).map Producto.precio = some 850 ∧
    (999 : Rat) ≠ 850 ∧
    (registrar_venta sOne 1 1 none [⟨1, 2, 999⟩] 0 none).1.total_venta = 1998 ∧
    (1998 : Rat) ≠ 2 * 850 := by
  refine ⟨rfl, ?_, rfl, by norm_num, ?_, by norm_num⟩
  · simp [registrar_venta, verificarStock, productoGet, sOne, commitVenta,
      mkDetalles, nextDetalleId, nextVentaId]
  · simp [registrar_venta, verificarStock, productoGet, sOne, mkDetalles,
      DetalleVenta.subtotal, nextDetalleId, nextVentaId]
    norm_num

/-- C1 (amended): each created line item captures the unit price supplied
in the corresponding entry of the request list (and its quantity), and
the returned total is the sum over entries of quantity times the supplied
price; the engine trusts the caller's price.  The route `nueva_venta` is
the caller: every request entry it builds carries the referenced
product's current price and a positive quantity, so sales placed through
the route do capture the product's price at the moment of the call. -/
theorem c1_precio_amended :
    (∀ (s : DBState) (c u hoy : Nat) (f : Option Nat)
        (dets : List DetalleProdReq) (fl : Option String),
      (registrar_venta s c u f dets hoy fl).1.status = Status.success →
      (registrar_venta s c u f dets hoy fl).2.detalles =
          s.detalles ++ mkDetalles (nextDetalleId s) (nextVentaId s) dets ∧
        (mkDetalles (nextDetalleId s) (nextVentaId s) dets).map
            DetalleVenta.precio_unitario = dets.map DetalleProdReq.precio ∧
        (mkDetalles (nextDetalleId s) (nextVentaId s) dets).map
            DetalleVenta.cantidad = dets.map DetalleProdReq.cant ∧
        (registrar_venta s c u f dets hoy fl).1.total_venta =
          (dets.map (fun d => (d.cant : Rat) * d.precio)).sum) ∧
    (∀ (s : DBState) (items : List (Nat × Int)),
      ∀ d ∈ buildDetalles s items,
        ∃ p, productoGet s d.id_producto = some p ∧
          d.precio = p.precio ∧ 0 < d.cant) := by
  constructor
  · intro s c u hoy f dets fl h
    obtain ⟨hv, hfl⟩ := registrar_venta_success_cases s c u hoy f dets fl h
    subst hfl
    rw [registrar_venta_success_eq s c u hoy f dets hv]
    exact ⟨by simp [commitVenta], mkDetalles_map_precio _ _ dets,
      mkDetalles_map_cantidad _ _ dets, mkDetalles_subtotal_sum _ _ dets⟩
  · intro s items
    induction items with
    | nil => simp [buildDetalles]
    | cons it rest ih =>
      obtain ⟨idp, cant⟩ := it
      intro d hd
      rw [buildDetalles] at hd
      by_cases hc : cant ≤ 0
      · rw [if_pos hc] at hd
        exact ih d hd
      · rw [if_neg hc] at hd
        cases hp : productoGet s idp with
        | none =>
          rw [hp] at hd
          exact ih d hd
        | some p =>
          rw [hp] at hd
          rcases List.mem_cons.mp hd with h1 | h2
          · subst h1
            exact ⟨p, hp, rfl, not_le.mp hc⟩
          · exact ih d h2

/-- C1 witness: on the spec's scenario 1 (price 850, quantity 2) the
amended statement is concrete — the total is the sum of quantity times
supplied price, and the route-built entry for item `(1, 2)` carries the
product's current price 850 and a positive quantity. -/
theorem c1_witness :
    ((registrar_venta sOne 1 1 none [⟨1, 2, 850⟩] 0 none).1.total_venta =
      (([⟨1, 2, 850⟩] : List DetalleProdReq).map
        (fun d => (d.cant : Rat) * d.precio)).sum) ∧
    (∃ p, productoGet sOne 1 = some p ∧ (850 : Rat) = p.precio ∧ (0 : Int) < 2) :=
  ⟨(c1_precio_amended.1 sOne 1 1 0 none [⟨1, 2, 850⟩] none rfl).2.2.2,
    c1_precio_amended.2 sOne [(1, 2)] ⟨1, 2, 850⟩ (by decide)⟩

/-- C2 evaluation at the failing input: the same product (id 1, stock 1)
requested in two lines of one unit each passes the per-line validation,
the call returns success, and the committed stock is -1 — the
non-negative-stock invariant the claim states is violated. -/
theorem c2_stock_negativo_eval :
    (registrar_venta sLow 1 1 none [⟨1, 1, 850⟩, ⟨1, 1, 850⟩] 0 none).1.status =
      Status.success ∧
    (registrar_venta sLow 1 1 none [⟨1, 1, 850⟩, ⟨1, 1, 850⟩] 0 none).2.productos.map
      Producto.stock = [-1] :=
  ⟨rfl, rfl⟩

/-- C4 counterexample: `registrar_venta` called with the empty request
list does not return an EmptyOrder-style error — it returns success and
creates a `Venta` row (with no line items). -/
theorem c4_counterexample :
    (registrar_venta sOne 1 1 none [] 0 none).1.status = Status.success ∧
    (registrar_venta sOne 1 1 none [] 0 none).2.ventas.length =
      sOne.ventas.length + 1 :=
  ⟨rfl, rfl⟩

/-- C4 (amended): the empty-order rejection lives in the request layer,
not in the engine: when the filtered detail list is empty the route
`nueva_venta` rejects with "Debe agregar al menos un producto" and never
invokes the engine, leaving the store untouched; the engine itself, given
an empty request list, returns success and creates exactly one `Venta`
with total 0, no line items and no stock change. -/
theorem c4_orden_vacia_amended :
    (∀ (s : DBState) (c u hoy : Nat) (items : List (Nat × Int))
        (fl : Option String),
      buildDetalles s items = [] →
      nueva_venta s c u hoy items fl =
        (RouteResult.rechazado "Debe agregar al menos un producto", s)) ∧
    (∀ (s : DBState) (c u hoy : Nat) (f : Option Nat),
      (registrar_venta s c u f [] hoy none).1.status = Status.success ∧
      (registrar_venta s c u f [] hoy none).2.productos = s.productos ∧
      (registrar_venta s c u f [] hoy none).2.detalles = s.detalles ∧
      (registrar_venta s c u f [] hoy none).2.ventas =
        s.ventas ++ [⟨nextVentaId s, f.getD hoy, c, u, 0⟩]) := by
  constructor
  · intro s c u hoy items fl h
    simp [nueva_venta, h]
  · intro s c u hoy f
    refine ⟨rfl, rfl, ?_, ?_⟩ <;>
      simp [registrar_venta, verificarStock, commitVenta, mkDetalles]

/-- C4 witness: an order whose only line has quantity 0 is filtered to
the empty list and rejected by the route without touching the store. -/
theorem c4_witness :
    nueva_venta sOne 1 1 0 [(1, 0)] none =
      (RouteResult.rechazado "Debe agregar al menos un producto", sOne) :=
  c4_orden_vacia_amended.1 sOne 1 1 0 [(1, 0)] none rfl

/-- C5 counterexample: a request naming the same product in two entries
creates two line items although only one distinct product (with positive
quantity) is referenced, refuting N = number of distinct products. -/
theorem c5_counterexample :
    (registrar_venta sOne 1 1 none [⟨1, 1, 850⟩, ⟨1, 1, 850⟩] 0 none).1.status =
      Status.success ∧
    (registrar_venta sOne 1 1 none [⟨1, 1, 850⟩, ⟨1, 1, 850⟩] 0 none).2.detalles.length = 2 ∧
    (dedupNat ((([⟨1, 1, 850⟩, ⟨1, 1, 850⟩] : List DetalleProdReq).filter
      (fun d => decide (0 < d.cant))).map (fun d => d.id_producto))).length = 1 ∧
    (2 : Nat) ≠ 1 :=
  ⟨rfl, rfl, rfl, by decide⟩

/-- C5 (amended): every successful call creates exactly one `Venta`, one
`DetalleVenta` per entry of the request list (the engine neither
deduplicates product ids nor filters non-positive quantities — that
filtering is the request layer's job), and at least one `Auditoria` row
of kind INSERT targeting the new sale whose text carries the customer id
and the formatted total. -/
theorem c5_lineas_amended (s : DBState) (c u hoy : Nat) (f : Option Nat)
    (dets : List DetalleProdReq) (fl : Option String)
    (h : (registrar_venta s c u f dets hoy fl).1.status = Status.success) :
    (registrar_venta s c u f dets hoy fl).2.ventas.length = s.ventas.length + 1 ∧
    (registrar_venta s c u f dets hoy fl).2.detalles.length =
      s.detalles.length + dets.length ∧
    ∃ a ∈ (registrar_venta s c u f dets hoy fl).2.auditorias,
      a.tabla = "Venta" ∧ a.accion = "INSERT" ∧
      a.id_registro = (registrar_venta s c u f dets hoy fl).1.venta_id ∧
      a.datos = datosAuditoriaVenta c
        (registrar_venta s c u f dets hoy fl).1.total_venta := by
  obtain ⟨hv, hfl⟩ := registrar_venta_success_cases s c u hoy f dets fl h
  subst hfl
  rw [registrar_venta_success_eq s c u hoy f dets hv]
  refine ⟨by simp [commitVenta], by simp [commitVenta, mkDetalles_length], ?_⟩
  refine ⟨auditoriaVenta c (nextVentaId s)
    ((mkDetalles (nextDetalleId s) (nextVentaId s) dets).map
      DetalleVenta.subtotal).sum, ?_, rfl, rfl, rfl, rfl⟩
  simp [commitVenta, List.mem_append]

/-- C5 witness: the spec's scenario 1 (one line, quantity 2) creates one
sale, one line item and the INSERT audit row for the sale. -/
theorem c5_witness :
    (registrar_venta sOne 1 1 none [⟨1, 2, 850⟩] 0 none).2.ventas.length =
      sOne.ventas.length + 1 ∧
    (registrar_venta sOne 1 1 none [⟨1, 2, 850⟩] 0 none).2.detalles.length =
      sOne.detalles.length + ([⟨1, 2, 850⟩] : List DetalleProdReq).length ∧
    ∃ a ∈ (registrar_venta sOne 1 1 none [⟨1, 2, 850⟩] 0 none).2.auditorias,
      a.tabla = "Venta" ∧ a.accion = "INSERT" ∧
      a.id_registro = (registrar_venta sOne 1 1 none [⟨1, 2, 850⟩] 0 none).1.venta_id ∧
      a.datos = datosAuditoriaVenta 1
        (registrar_venta sOne 1 1 none [⟨1, 2, 850⟩] 0 none).1.total_venta :=
  c5_lineas_amended sOne 1 1 0 none [⟨1, 2, 850⟩] none rfl
